import Mathlib

/-!
Verification development for the LaTeX docker template repository.

The definitions below are a shallow embedding of the build-and-watch
orchestration subsystem:
- `scripts/build.py` : single-shot build command construction, diagnostic
  extraction, and result reporting for the sandboxed (Docker) and local paths;
- `scripts/watch.py` : the `LaTeXHandler` rebuild scheduler (event filtering,
  debouncing, the `building` mutual-exclusion flag) and the watch-mode
  rebuild commands;
- `scripts/clean.py` : the deletion/reporting phase of `main`.

Python strings are Lean `String`s, Python lists are Lean `List`s, and
`time.time()` values are passed explicitly as `Rat`.  Subprocess execution is
abstracted by an explicit outcome datatype (`RunOutcome` / `BuildExit`): the
outcome of the external process is an input, and the embedded functions
reproduce what the Python code computes from that outcome.
-/

namespace LatexDocker

/-- Python `pat in s` substring containment test. -/
def pyContains (s pat : String) : Bool := decide (pat.data <:+: s.data)

/-- Python `s.lower()`, embedded as character-wise lowercasing. -/
def pyLower (s : String) : String := String.mk (s.data.map Char.toLower)

/-- Python `s[-n:]` : the last `n` characters of `s` (all of `s` when shorter). -/
def pyTail (n : Nat) (s : String) : String :=
  String.mk (s.data.drop (s.data.length - n))

/-- Python `l[-n:]` : the last `n` elements of a list (all of it when shorter). -/
def pyTakeLast {α : Type} (n : Nat) (l : List α) : List α :=
  l.drop (l.length - n)

/-- Helper for `pyLines`: splits a character list at newline characters,
accumulating the current line in reverse. -/
def pyLinesAux : List Char → List Char → List String
  | [], cur => [String.mk cur.reverse]
  | c :: rest, cur =>
      if c == '\n' then String.mk cur.reverse :: pyLinesAux rest []
      else pyLinesAux rest (c :: cur)

/-- Python `s.split('\n')` : the lines of `s` (`[""]` for the empty string). -/
def pyLines (s : String) : List String := pyLinesAux s.data []

/-- Python `sep.join(l)`. -/
def pyJoin (sep : String) : List String → String
  | [] => ""
  | [x] => x
  | x :: y :: xs => x ++ sep ++ pyJoin sep (y :: xs)

/-- Python `s.strip()` : remove leading and trailing whitespace. -/
def pyStrip (s : String) : String :=
  String.mk (((s.data.dropWhile Char.isWhitespace).reverse.dropWhile
    Char.isWhitespace).reverse)

/-- `DOCKER_IMAGE` constant shared by `build.py` and `watch.py`. -/
def DOCKER_IMAGE : String := "texlive/texlive:latest-full"

/-- `build.py` lines 73–92 (`run_docker_build`): the latexmk command built to
run inside Docker, as a function of the output directory, the `draft` and
`validate_only` flags, and the source path string. -/
def build_latex_cmd (output_dir : String) (draft validate_only : Bool)
    (src : String) : List String :=
  (["latexmk",
    "-pdf",
    "-shell-escape",
    "-interaction=nonstopmode",
    "-file-line-error",
    "-g",
    "-output-directory=" ++ output_dir]
   ++ (if draft then ["-pdflatex=pdflatex -shell-escape -draftmode %O %S"] else [])
   ++ (if validate_only then
         ["-pdflatex=pdflatex -shell-escape -draftmode -halt-on-error %O %S", "-g"]
       else []))
  ++ [src]

/-- `build.py` lines 95–100 (`run_docker_build`): the full Docker command,
the container wrapper followed by the latexmk command. -/
def build_docker_cmd (cwd output_dir : String) (draft validate_only : Bool)
    (src : String) : List String :=
  ["docker", "run", "--rm",
   "-v", cwd ++ ":/workspace",
   "-w", "/workspace",
   DOCKER_IMAGE]
  ++ build_latex_cmd output_dir draft validate_only src

/-- `build.py` lines 149–168 (`run_local_build`): the latexmk command for the
local path, transcribed from its own (textually separate) construction. -/
def local_build_cmd (output_dir : String) (draft validate_only : Bool)
    (src : String) : List String :=
  (["latexmk",
    "-pdf",
    "-shell-escape",
    "-interaction=nonstopmode",
    "-file-line-error",
    "-g",
    "-output-directory=" ++ output_dir]
   ++ (if draft then ["-pdflatex=pdflatex -shell-escape -draftmode %O %S"] else [])
   ++ (if validate_only then
         ["-pdflatex=pdflatex -shell-escape -draftmode -halt-on-error %O %S", "-g"]
       else []))
  ++ [src]

/-- The `-pdflatex=... -halt-on-error ...` override appended when
`validate_only` is set (`build.py` line 88 and line 164). -/
def halt_override : String :=
  "-pdflatex=pdflatex -shell-escape -draftmode -halt-on-error %O %S"

/-- The `-pdflatex=... -draftmode ...` override appended when `draft` is set
(`build.py` line 84 and line 160). -/
def draft_override : String :=
  "-pdflatex=pdflatex -shell-escape -draftmode %O %S"

/-- `build.py` line 117: a line is kept as a diagnostic by `run_docker_build`
when it contains `!`, or `Error`, or (case-insensitively) `error`. -/
def docker_error_line (line : String) : Bool :=
  pyContains line "!" || pyContains line "Error" || pyContains (pyLower line) "error"

/-- `build.py` lines 114–118: the matching lines of the combined output, in
original order (`run_docker_build`). -/
def docker_error_lines (output : String) : List String :=
  (pyLines output).filter docker_error_line

/-- `build.py` line 120: the reported diagnostic lines, `error_lines[-10:]`. -/
def docker_reported (output : String) : List String :=
  pyTakeLast 10 (docker_error_lines output)

/-- `build.py` line 120: the error message of `run_docker_build`:
the joined last ten matching lines, or the last 1000 characters of the raw
output when no line matches. -/
def docker_error_msg (output : String) : String :=
  if (docker_error_lines output).isEmpty then pyTail 1000 output
  else pyJoin "\n" (pyTakeLast 10 (docker_error_lines output))

/-- `build.py` line 183: a line is kept as a diagnostic by `run_local_build`
when it contains `!` or `Error` (case-sensitive; no lowercase clause). -/
def local_error_line (line : String) : Bool :=
  pyContains line "!" || pyContains line "Error"

/-- `build.py` lines 181–184: the matching lines of `result.stdout`
(stderr is not scanned on the local path). -/
def local_error_lines (stdout : String) : List String :=
  (pyLines stdout).filter local_error_line

/-- `build.py` line 186: the reported diagnostic lines, `error_lines[-10:]`. -/
def local_reported (stdout : String) : List String :=
  pyTakeLast 10 (local_error_lines stdout)

/-- `build.py` line 186: the error message of `run_local_build`: the joined
last ten matching lines, or the last 500 characters of stdout when no line
matches. -/
def local_error_msg (stdout : String) : String :=
  if (local_error_lines stdout).isEmpty then pyTail 500 stdout
  else pyJoin "\n" (pyTakeLast 10 (local_error_lines stdout))

/-- The matching predicate as the specification states it: a line with `!`
or a case-insensitive occurrence of `error`. -/
def claim_error_line (line : String) : Bool :=
  pyContains line "!" || pyContains (pyLower line) "error"

/-- Outcome of the `subprocess.run` call inside `run_docker_build` /
`run_local_build`: normal completion with an exit code and captured output,
`TimeoutExpired`, `FileNotFoundError`, or any other exception. -/
inductive RunOutcome where
  | completed (returncode : Int) (stdout stderr : String)
  | timedOut
  | fileNotFound
  | otherError (msg : String)
deriving DecidableEq

/-- `build.py` lines 102–128: the `(success, message)` pair returned by
`run_docker_build` for each possible subprocess outcome. -/
def run_docker_build (o : RunOutcome) : Bool × String :=
  match o with
  | .completed rc stdout stderr =>
      if rc == 0 then (true, "Build successful")
      else (false, docker_error_msg (stdout ++ stderr))
  | .timedOut => (false, "Build timed out after 10 minutes")
  | .fileNotFound => (false, "Docker not found. Please install Docker.")
  | .otherError e => (false, "Unexpected error: " ++ e)

/-- `build.py` lines 170–194: the `(success, message)` pair returned by
`run_local_build` for each possible subprocess outcome. -/
def run_local_build (o : RunOutcome) : Bool × String :=
  match o with
  | .completed rc stdout _stderr =>
      if rc == 0 then (true, "Build successful")
      else (false, local_error_msg stdout)
  | .timedOut => (false, "Build timed out after 5 minutes")
  | .fileNotFound =>
      (false, "latexmk not found. Install TeX Live or use Docker (remove --local).")
  | .otherError e => (false, "Unexpected error: " ++ e)

/-! Embedding of `scripts/watch.py`. -/

/-- A filesystem path, as its sequence of components (`pathlib.Path.parts`). -/
structure PyPath where
  parts : List String
deriving DecidableEq

/-- `pathlib` suffix of a single file name: the part from the last dot on,
empty when there is no dot, when the name starts with the only dot, or when
the name ends with the dot. -/
def pySuffix (name : String) : String :=
  let cs := name.data
  let revAfter := cs.reverse.takeWhile (fun c => !(c == '.'))
  if revAfter.length == cs.length then ""
  else if revAfter.length == 0 then ""
  else if revAfter.length == cs.length - 1 then ""
  else String.mk (List.cons '.' revAfter.reverse)

/-- `Path.suffix` of a path: the suffix of its last component. -/
def PyPath.suffix (p : PyPath) : String :=
  match p.parts.getLast? with
  | none => ""
  | some name => pySuffix name

/-- `watch.py` line 71: `self.watch_extensions`. -/
def watch_extensions : List String := [".tex", ".bib", ".sty", ".cls"]

/-- The mutable state and configuration of `LaTeXHandler`
(`watch.py` lines 54–71). -/
structure LaTeXHandler where
  src_dir : PyPath
  output_dir : PyPath
  main_file : String
  use_local : Bool
  debounce_seconds : Rat
  last_build_time : Rat
  building : Bool
deriving DecidableEq

/-- `watch.py` lines 73–95 (`LaTeXHandler.should_rebuild`): busy check, then
suffix filter, then output-directory exclusion (`path.relative_to` succeeds
exactly when the output directory components are a prefix of the path
components), then the debounce check against `time.time()` (passed as
`current_time`). -/
def should_rebuild (h : LaTeXHandler) (path : PyPath) (current_time : Rat) : Bool :=
  if h.building then false
  else if !(watch_extensions.contains (PyPath.suffix path)) then false
  else if h.output_dir.parts <+: path.parts then false
  else if current_time - h.last_build_time < h.debounce_seconds then false
  else true

/-- Which of the early returns of `should_rebuild` fires (or `build` when
none does), mirroring the order of the checks in `watch.py` lines 73–95. -/
inductive RebuildDecision where
  | build
  | rejectedBusy
  | rejectedSuffix
  | rejectedOutputDir
  | rejectedDebounce
deriving DecidableEq

/-- The decision of `should_rebuild`, with the rejecting check identified. -/
def should_rebuild_decision (h : LaTeXHandler) (path : PyPath)
    (current_time : Rat) : RebuildDecision :=
  if h.building then .rejectedBusy
  else if !(watch_extensions.contains (PyPath.suffix path)) then .rejectedSuffix
  else if h.output_dir.parts <+: path.parts then .rejectedOutputDir
  else if current_time - h.last_build_time < h.debounce_seconds then .rejectedDebounce
  else .build

/-- Exit path of the `try` block inside `LaTeXHandler.rebuild`: the
subprocess completed with an exit code and output, or `TimeoutExpired` was
raised, or some other exception was raised. -/
inductive BuildExit where
  | completed (returncode : Int) (stdout stderr : String)
  | timedOut
  | raised (msg : String)
deriving DecidableEq

/-- `watch.py` lines 110–118 (`LaTeXHandler.rebuild`, local branch): the
latexmk command for a watch-mode rebuild. -/
def watch_local_cmd (output_dir main_tex : String) : List String :=
  ["latexmk",
   "-pdf",
   "-shell-escape",
   "-interaction=nonstopmode",
   "-output-directory=" ++ output_dir,
   main_tex]

/-- `watch.py` lines 125–141 (`LaTeXHandler.rebuild`, Docker branch): the
Docker command for a watch-mode rebuild. -/
def watch_docker_cmd (cwd output_dir main_tex : String) : List String :=
  ["docker", "run", "--rm",
   "-v", cwd ++ ":/workspace",
   "-w", "/workspace",
   DOCKER_IMAGE,
   "latexmk",
   "-pdf",
   "-shell-escape",
   "-interaction=nonstopmode",
   "-output-directory=" ++ output_dir,
   main_tex]

/-- `watch.py` lines 97–161 (`LaTeXHandler.rebuild`): sets `building` and
`last_build_time`, runs the build, prints a report depending on the exit
path, and clears `building` in the `finally` block on every exit path.
Returns the new handler state and the printed report lines. -/
def rebuild (h : LaTeXHandler) (now : Rat) (outcome : BuildExit) :
    LaTeXHandler × List String :=
  let h1 : LaTeXHandler := { h with building := true, last_build_time := now }
  let msgs : List String :=
    match outcome with
    | .completed rc stdout stderr =>
        if rc == 0 then ["✓ Build successful!"]
        else
          let output := stdout ++ stderr
          "✗ Build failed" ::
            ((pyTakeLast 5 (pyLines (pyStrip output))).filter
              (fun l => !(pyStrip l == "")))
    | .timedOut => ["✗ Build timed out"]
    | .raised e => ["✗ Error: " ++ e]
  ({ h1 with building := false }, msgs)

/-- `watch.py` lines 163–166 (`LaTeXHandler.on_modified`): runs `rebuild`
when the event is not a directory and `should_rebuild` accepts it; returns
the resulting handler state and whether a build was triggered. -/
def on_modified (h : LaTeXHandler) (path : PyPath) (is_directory : Bool)
    (t : Rat) (outcome : BuildExit) : LaTeXHandler × Bool :=
  if !is_directory && should_rebuild h path t then
    ((rebuild h t outcome).1, true)
  else
    (h, false)

/-! Embedding of the deletion/reporting phase of `scripts/clean.py` `main`
(lines 142–200).  Discovered files and minted directories are given as
(name, size) pairs; a directory's size is the total size of the files it
contains (the inner `rglob` sum of lines 149–154). -/

/-- The observable effects of the clean phase. -/
structure CleanReport where
  total_size : Nat
  deleted_files : List String
  remaining_files : List String
  deleted_dirs : List String
  more_files_note : Option String
deriving DecidableEq

/-- `clean.py` lines 142–200: total size is summed over every discovered file
and directory; without `--dry-run` the file loop deletes only
`files_to_delete[:20]` (the rest are only counted in the "... and N more
files" note) while every minted directory is removed. -/
def clean_run (dry_run : Bool) (files_to_delete dirs_to_delete : List (String × Nat)) :
    CleanReport :=
  let total_size := (files_to_delete.map Prod.snd).sum + (dirs_to_delete.map Prod.snd).sum
  let names := files_to_delete.map Prod.fst
  { total_size := total_size
    deleted_files := if dry_run then [] else names.take 20
    remaining_files := if dry_run then names else names.drop 20
    deleted_dirs := if dry_run then [] else dirs_to_delete.map Prod.fst
    more_files_note :=
      if 20 < files_to_delete.length then
        some ("... and " ++ toString (files_to_delete.length - 20) ++ " more files")
      else none }

/-! Helper lemmas. -/

theorem pyLower_contains_error {line : String} (h : pyContains line "Error" = true) :
    pyContains (pyLower line) "error" = true := by
  unfold pyContains at h ⊢
  have h' := of_decide_eq_true h
  apply decide_eq_true
  obtain ⟨u, v, huv⟩ := h'
  refine ⟨u.map Char.toLower, v.map Char.toLower, ?_⟩
  have hmap : "error".data = "Error".data.map Char.toLower := by decide
  calc u.map Char.toLower ++ "error".data ++ v.map Char.toLower
      = (u ++ "Error".data ++ v).map Char.toLower := by
        simp [List.map_append, hmap]
    _ = (pyLower line).data := by rw [huv]; rfl

theorem docker_error_line_eq_claim (l : String) :
    docker_error_line l = claim_error_line l := by
  unfold docker_error_line claim_error_line
  cases hb : pyContains l "Error" with
  | false => simp [hb]
  | true => simp [hb, pyLower_contains_error hb]

theorem pyTail_ne_empty {n : Nat} (hn : 0 < n) {s : String} (hs : s ≠ "") :
    pyTail n s ≠ "" := by
  intro he
  have hd : (pyTail n s).data = "".data := congrArg String.data he
  unfold pyTail at hd
  rw [show (String.mk (s.data.drop (s.data.length - n))).data
        = s.data.drop (s.data.length - n) from rfl] at hd
  rw [show ("" : String).data = [] from rfl] at hd
  rw [List.drop_eq_nil_iff] at hd
  have hne : s.data ≠ [] := fun h0 => hs (String.ext h0)
  have hlen : s.data.length ≠ 0 := fun h0 => hne (List.length_eq_zero.mp h0)
  omega

theorem reported_tail_spec (pred : String → Bool) (lines : List String)
    (hany : lines.any pred = true) :
    pyTakeLast 10 (lines.filter pred) ≠ []
    ∧ (pyTakeLast 10 (lines.filter pred)).length ≤ 10
    ∧ (∀ l ∈ pyTakeLast 10 (lines.filter pred), pred l = true)
    ∧ (pyTakeLast 10 (lines.filter pred)).Sublist lines
    ∧ pyTakeLast 10 (lines.filter pred) <:+ lines.filter pred := by
  have hfil : lines.filter pred ≠ [] := by
    rw [Ne, List.filter_eq_nil_iff]
    push_neg
    obtain ⟨x, hx, hpx⟩ := List.any_eq_true.mp hany
    exact ⟨x, hx, hpx⟩
  have hlen0 : (lines.filter pred).length ≠ 0 :=
    fun h0 => hfil (List.length_eq_zero.mp h0)
  unfold pyTakeLast
  refine ⟨?_, ?_, ?_, ?_, ?_⟩
  · intro h0
    rw [List.drop_eq_nil_iff] at h0
    omega
  · rw [List.length_drop]
    omega
  · intro l hl
    exact (List.mem_filter.mp (List.mem_of_mem_drop hl)).2
  · exact (List.drop_sublist _ _).trans (List.filter_sublist lines)
  · exact List.drop_suffix _ _

theorem string_append_ne_of_take {a b c : String} (n : Nat)
    (hn : n ≤ a.data.length) (h : a.data.take n ≠ c.data.take n) :
    a ++ b ≠ c := by
  intro he
  apply h
  have h2 := congrArg (fun s : String => s.data.take n) he
  simpa [String.data_append, List.take_append_of_le_length hn] using h2

theorem string_append_ne_of_last {a b c : String} (x : Char)
    (hb : b.data.getLast? = some x) (hc : c.data.getLast? ≠ some x) :
    a ++ b ≠ c := by
  intro he
  apply hc
  have h2 := congrArg (fun s : String => s.data.getLast?) he
  simp only [String.data_append, List.getLast?_append, hb] at h2
  rw [← h2]
  rfl

theorem string_append_ne_of_length {a b c : String} (h : c.length < a.length) :
    a ++ b ≠ c := by
  intro he
  have h2 := congrArg String.length he
  rw [String.length_append] at h2
  omega

theorem fallback_of_no_match {pred : String → Bool} {lines : List String}
    (hall : lines.all (fun l => !pred l) = true) :
    lines.filter pred = [] := by
  rw [List.filter_eq_nil_iff]
  intro a ha
  have := List.all_eq_true.mp hall a ha
  simpa using this

/-- C2 counterexample: for the local build path the claim fails: the stdout
`"junk\nsome error one\nmore junk"` of a failed invocation contains a line
with a case-insensitive occurrence of "error", yet `run_local_build` finds no
matching line (its predicate is case-sensitive `!`/`Error`) and reports the
raw 500-character tail, which contains the non-matching line `"junk"`. -/
theorem local_extract_not_insensitive :
    (pyLines ("junk\nsome error one\nmore junk" ++ "")).any claim_error_line = true
    ∧ local_error_lines "junk\nsome error one\nmore junk" = []
    ∧ run_local_build (.completed 1 "junk\nsome error one\nmore junk" "")
        = (false, "junk\nsome error one\nmore junk")
    ∧ claim_error_line "junk" = false :=
  ⟨by decide, by decide, by decide, by decide⟩

/-- C2 (amended): for the sandboxed path, whenever the combined stdout+stderr
of a failed invocation has a line matching the claimed predicate (`!` or
case-insensitive "error"), the reported diagnostic lines are non-empty, at
most 10, all matching, in original relative order (a sublist of the output
lines), and are the last matching lines; the local path satisfies the same
bounds for its own case-sensitive predicate (`!` or `Error`) applied to
stdout alone. -/
theorem extract_matching_lines_bounded :
    (∀ stdout stderr : String,
      (pyLines (stdout ++ stderr)).any claim_error_line = true →
      docker_reported (stdout ++ stderr) ≠ []
      ∧ (docker_reported (stdout ++ stderr)).length ≤ 10
      ∧ (∀ l ∈ docker_reported (stdout ++ stderr), claim_error_line l = true)
      ∧ (docker_reported (stdout ++ stderr)).Sublist (pyLines (stdout ++ stderr))
      ∧ docker_reported (stdout ++ stderr) <:+ docker_error_lines (stdout ++ stderr)
      ∧ run_docker_build (.completed 1 stdout stderr)
          = (false, pyJoin "\n" (docker_reported (stdout ++ stderr))))
    ∧ (∀ stdout stderr : String,
      (pyLines stdout).any local_error_line = true →
      local_reported stdout ≠ []
      ∧ (local_reported stdout).length ≤ 10
      ∧ (∀ l ∈ local_reported stdout, local_error_line l = true)
      ∧ (local_reported stdout).Sublist (pyLines stdout)
      ∧ local_reported stdout <:+ local_error_lines stdout
      ∧ run_local_build (.completed 1 stdout stderr)
          = (false, pyJoin "\n" (local_reported stdout))) := by
  have hfun : docker_error_line = claim_error_line :=
    funext docker_error_line_eq_claim
  constructor
  · intro stdout stderr hany
    have hs := reported_tail_spec claim_error_line (pyLines (stdout ++ stderr)) hany
    have hrep : docker_reported (stdout ++ stderr)
        = pyTakeLast 10 ((pyLines (stdout ++ stderr)).filter claim_error_line) := by
      unfold docker_reported docker_error_lines
      rw [hfun]
    have hlines : docker_error_lines (stdout ++ stderr)
        = (pyLines (stdout ++ stderr)).filter claim_error_line := by
      unfold docker_error_lines
      rw [hfun]
    refine ⟨?_, ?_, ?_, ?_, ?_, ?_⟩
    · rw [hrep]; exact hs.1
    · rw [hrep]; exact hs.2.1
    · rw [hrep]; exact hs.2.2.1
    · rw [hrep]; exact hs.2.2.2.1
    · rw [hrep, hlines]; exact hs.2.2.2.2
    · show (false, docker_error_msg (stdout ++ stderr)) = _
      unfold docker_error_msg
      have hne : docker_error_lines (stdout ++ stderr) ≠ [] := by
        intro h0
        apply hs.1
        have h1 : List.filter claim_error_line (pyLines (stdout ++ stderr)) = [] := by
          rw [← hlines]; exact h0
        rw [h1]
        rfl
      rw [show (docker_error_lines (stdout ++ stderr)).isEmpty = false from
        List.isEmpty_eq_false.mpr hne]
      rw [hlines, hrep]
      rfl
  · intro stdout stderr hany
    have hs := reported_tail_spec local_error_line (pyLines stdout) hany
    refine ⟨hs.1, hs.2.1, hs.2.2.1, hs.2.2.2.1, hs.2.2.2.2, ?_⟩
    show (false, local_error_msg stdout) = _
    unfold local_error_msg
    have hne : local_error_lines stdout ≠ [] := by
      intro h0
      apply hs.1
      have h1 : List.filter local_error_line (pyLines stdout) = [] := h0
      rw [h1]
      rfl
    rw [show (local_error_lines stdout).isEmpty = false from
      List.isEmpty_eq_false.mpr hne]
    rfl

/-- Witness for the C2 amended theorem at a concrete failed output. -/
theorem extract_matching_lines_bounded_witness :
    ((pyLines ("! x" ++ "")).any claim_error_line = true
      ∧ docker_reported ("! x" ++ "") ≠ [])
    ∧ ((pyLines "! y").any local_error_line = true
      ∧ local_reported "! y" ≠ []) :=
  ⟨⟨by decide, (extract_matching_lines_bounded.1 "! x" "" (by decide)).1⟩,
   ⟨by decide, (extract_matching_lines_bounded.2 "! y" "" (by decide)).1⟩⟩

/-- C3 counterexample: a failed invocation with empty captured output (and,
on the local path, output only on stderr) reports an empty message: the
fallback tail can be empty, so the reported message is not "never empty". -/
theorem fallback_empty_message :
    run_docker_build (.completed 1 "" "") = (false, "")
    ∧ run_local_build (.completed 1 "" "xyz") = (false, "")
    ∧ ("" ++ "xyz" : String) ≠ ""
    ∧ (pyLines ("" ++ "xyz")).all (fun l => !local_error_line l) = true
    ∧ (pyLines ("" ++ "")).all (fun l => !docker_error_line l) = true :=
  ⟨by decide, by decide, by decide, by decide, by decide⟩

/-- C3 (amended): when no line of the output matches, the reported message is
the raw tail — the last 1000 characters of combined stdout+stderr on the
sandboxed path, the last 500 characters of stdout on the local path — and is
non-empty whenever that raw source is non-empty. -/
theorem extract_fallback_tail :
    (∀ stdout stderr : String,
      (pyLines (stdout ++ stderr)).all (fun l => !docker_error_line l) = true →
      docker_error_msg (stdout ++ stderr) = pyTail 1000 (stdout ++ stderr)
      ∧ (stdout ++ stderr ≠ "" → docker_error_msg (stdout ++ stderr) ≠ ""))
    ∧ (∀ stdout : String,
      (pyLines stdout).all (fun l => !local_error_line l) = true →
      local_error_msg stdout = pyTail 500 stdout
      ∧ (stdout ≠ "" → local_error_msg stdout ≠ "")) := by
  constructor
  · intro stdout stderr hall
    have hfil : docker_error_lines (stdout ++ stderr) = [] :=
      fallback_of_no_match hall
    have hmsg : docker_error_msg (stdout ++ stderr) = pyTail 1000 (stdout ++ stderr) := by
      unfold docker_error_msg
      rw [show (docker_error_lines (stdout ++ stderr)).isEmpty = true from
        List.isEmpty_iff.mpr hfil]
      rfl
    exact ⟨hmsg, fun hs => hmsg ▸ pyTail_ne_empty (by omega) hs⟩
  · intro stdout hall
    have hfil : local_error_lines stdout = [] := fallback_of_no_match hall
    have hmsg : local_error_msg stdout = pyTail 500 stdout := by
      unfold local_error_msg
      rw [show (local_error_lines stdout).isEmpty = true from
        List.isEmpty_iff.mpr hfil]
      rfl
    exact ⟨hmsg, fun hs => hmsg ▸ pyTail_ne_empty (by omega) hs⟩

/-- Witness for the C3 amended theorem at a concrete unmatched output. -/
theorem extract_fallback_tail_witness :
    ((pyLines ("abc" ++ "de")).all (fun l => !docker_error_line l) = true
      ∧ docker_error_msg ("abc" ++ "de") = pyTail 1000 ("abc" ++ "de"))
    ∧ ((pyLines "abc").all (fun l => !local_error_line l) = true
      ∧ local_error_msg "abc" ≠ "") :=
  ⟨⟨by decide, (extract_fallback_tail.1 "abc" "de" (by decide)).1⟩,
   ⟨by decide, (extract_fallback_tail.2 "abc" (by decide)).2 (by decide)⟩⟩

/-- C6: for every build mode, source and output directory, the sandboxed
command is exactly the container wrapper followed by the local command; the
trailing latexmk command of the two paths is identical. -/
theorem docker_local_command_symmetry (cwd output_dir src : String)
    (draft validate_only : Bool) :
    build_docker_cmd cwd output_dir draft validate_only src
      = ["docker", "run", "--rm", "-v", cwd ++ ":/workspace", "-w", "/workspace",
         DOCKER_IMAGE]
        ++ local_build_cmd output_dir draft validate_only src
    ∧ build_latex_cmd output_dir draft validate_only src
      = local_build_cmd output_dir draft validate_only src := by
  cases draft <;> cases validate_only <;> exact ⟨rfl, rfl⟩

/-- C5: `validate_only` always puts the halt-on-error override into the
command (both sandboxed and local construction), even when `draft` is also
set — and then the halt-on-error override comes after the draft override, so
it takes precedence as the later `-pdflatex` option; with only `draft` set
the command never contains the halt-on-error override. -/
theorem validate_only_overrides (output_dir src : String) (draft : Bool)
    (hsrc : src ≠ halt_override) :
    (halt_override ∈ build_latex_cmd output_dir draft true src
      ∧ halt_override ∈ local_build_cmd output_dir draft true src)
    ∧ ((build_latex_cmd output_dir true true src)[7]? = some draft_override
      ∧ (build_latex_cmd output_dir true true src)[8]? = some halt_override)
    ∧ (halt_override ∉ build_latex_cmd output_dir true false src
      ∧ halt_override ∉ local_build_cmd output_dir true false src) := by
  have hout : ¬ ("-output-directory=" ++ output_dir = halt_override) :=
    string_append_ne_of_take 2 (by decide) (by decide)
  refine ⟨⟨?_, ?_⟩, ⟨rfl, rfl⟩, ?_, ?_⟩
  · unfold build_latex_cmd
    refine List.mem_append_left _ (List.mem_append_right _ ?_)
    cases draft <;> exact List.mem_cons_self _ _
  · unfold local_build_cmd
    refine List.mem_append_left _ (List.mem_append_right _ ?_)
    cases draft <;> exact List.mem_cons_self _ _
  · intro hmem
    simp [build_latex_cmd, halt_override] at hmem
    rcases hmem with h | h
    · exact hout h.symm
    · exact hsrc h.symm
  · intro hmem
    simp [local_build_cmd, halt_override] at hmem
    rcases hmem with h | h
    · exact hout h.symm
    · exact hsrc h.symm

/-- Witness for C5 at a concrete source and output directory. -/
theorem validate_only_overrides_witness :
    ("src/main.tex" : String) ≠ halt_override
    ∧ halt_override ∈ build_latex_cmd "build" true true "src/main.tex" :=
  ⟨by decide, (validate_only_overrides "build" "src/main.tex" true (by decide)).1.1⟩

/-- C4 counterexample: the watch-mode rebuild command omits the base flags
`-file-line-error` and `-g`, so not every compilation invocation constructed
by the system includes all base compilation flags. -/
theorem watch_rebuild_missing_base_flags :
    "-file-line-error" ∉ watch_local_cmd "build" "src/main.tex"
    ∧ "-g" ∉ watch_local_cmd "build" "src/main.tex"
    ∧ "-file-line-error" ∉ watch_docker_cmd "/home/user" "build" "src/main.tex"
    ∧ "-g" ∉ watch_docker_cmd "/home/user" "build" "src/main.tex" :=
  ⟨by decide, by decide, by decide, by decide⟩

/-- C4 (amended): the single-shot build invocations (sandboxed and local)
include every base compilation flag (PDF target, shell-escape, non-stop
interaction, file-line-error, forced rebuild `-g`, explicit output
directory); the watch-mode rebuild includes the PDF target, shell-escape,
non-stop interaction and output-directory flags but omits `-file-line-error`
and `-g`. -/
theorem base_flags_coverage (cwd output_dir src main_tex : String)
    (draft validate_only : Bool)
    (h1 : main_tex ≠ "-file-line-error") (h2 : main_tex ≠ "-g") :
    (∀ f ∈ (["-pdf", "-shell-escape", "-interaction=nonstopmode",
             "-file-line-error", "-g",
             "-output-directory=" ++ output_dir] : List String),
       f ∈ build_latex_cmd output_dir draft validate_only src
       ∧ f ∈ local_build_cmd output_dir draft validate_only src
       ∧ f ∈ build_docker_cmd cwd output_dir draft validate_only src)
    ∧ (∀ f ∈ (["-pdf", "-shell-escape", "-interaction=nonstopmode",
               "-output-directory=" ++ output_dir] : List String),
       f ∈ watch_local_cmd output_dir main_tex
       ∧ f ∈ watch_docker_cmd cwd output_dir main_tex)
    ∧ "-file-line-error" ∉ watch_local_cmd output_dir main_tex
    ∧ "-g" ∉ watch_local_cmd output_dir main_tex
    ∧ "-file-line-error" ∉ watch_docker_cmd cwd output_dir main_tex
    ∧ "-g" ∉ watch_docker_cmd cwd output_dir main_tex := by
  have houtf : ¬ ("-output-directory=" ++ output_dir = "-file-line-error") :=
    string_append_ne_of_take 2 (by decide) (by decide)
  have houtg : ¬ ("-output-directory=" ++ output_dir = "-g") :=
    string_append_ne_of_take 2 (by decide) (by decide)
  have hcwdf : ¬ (cwd ++ ":/workspace" = "-file-line-error") :=
    string_append_ne_of_last 'e' (by decide) (by decide)
  have hcwdg : ¬ (cwd ++ ":/workspace" = "-g") :=
    string_append_ne_of_last 'e' (by decide) (by decide)
  refine ⟨?_, ?_, ?_, ?_, ?_, ?_⟩
  · intro f hf
    simp only [List.mem_cons, List.not_mem_nil, or_false] at hf
    rcases hf with h | h | h | h | h | h
    all_goals subst h
    all_goals exact ⟨by simp [build_latex_cmd], by simp [local_build_cmd],
      by simp [build_docker_cmd, build_latex_cmd]⟩
  · intro f hf
    simp only [List.mem_cons, List.not_mem_nil, or_false] at hf
    rcases hf with h | h | h | h
    all_goals subst h
    all_goals exact ⟨by simp [watch_local_cmd], by simp [watch_docker_cmd]⟩
  · intro hmem
    simp [watch_local_cmd] at hmem
    rcases hmem with h | h
    · exact houtf h.symm
    · exact h1 h.symm
  · intro hmem
    simp [watch_local_cmd] at hmem
    rcases hmem with h | h
    · exact houtg h.symm
    · exact h2 h.symm
  · intro hmem
    simp [watch_docker_cmd, DOCKER_IMAGE] at hmem
    rcases hmem with h | h | h
    · exact hcwdf h.symm
    · exact houtf h.symm
    · exact h1 h.symm
  · intro hmem
    simp [watch_docker_cmd, DOCKER_IMAGE] at hmem
    rcases hmem with h | h | h
    · exact hcwdg h.symm
    · exact houtg h.symm
    · exact h2 h.symm

/-- Witness for the C4 amended theorem at concrete arguments. -/
theorem base_flags_coverage_witness :
    ("main.tex" : String) ≠ "-file-line-error"
    ∧ "-file-line-error" ∉ watch_local_cmd "build" "main.tex" :=
  ⟨by decide,
   (base_flags_coverage "/w" "build" "src/main.tex" "main.tex" false false
     (by decide) (by decide)).2.2.1⟩

/-- C1: while the `building` flag is set, `should_rebuild` rejects every
event, and `rebuild` clears the flag on every exit path (success, failure,
timeout, exception), so the scheduler is never stuck in the building state. -/
theorem single_flight_invariant :
    (∀ (h : LaTeXHandler) (path : PyPath) (t : Rat),
        h.building = true → should_rebuild h path t = false)
    ∧ (∀ (h : LaTeXHandler) (now : Rat) (outcome : BuildExit),
        ((rebuild h now outcome).1).building = false) := by
  constructor
  · intro h p t hb
    unfold should_rebuild
    rw [hb]
    rfl
  · intro h now o
    rfl

/-- Witness for C1 at a concrete busy handler and a concrete rebuild. -/
theorem single_flight_invariant_witness :
    should_rebuild ⟨⟨["src"]⟩, ⟨["build"]⟩, "main.tex", false, 1, 0, true⟩
        ⟨["src", "main.tex"]⟩ 5 = false
    ∧ ((rebuild ⟨⟨["src"]⟩, ⟨["build"]⟩, "main.tex", false, 1, 0, false⟩
        3 .timedOut).1).building = false :=
  ⟨single_flight_invariant.1 _ _ _ rfl, single_flight_invariant.2 _ _ _⟩

/-- C7: an event whose path lies under the configured output directory never
triggers a rebuild, whatever the handler state, the suffix, and the time. -/
theorem output_dir_never_triggers (h : LaTeXHandler) (path : PyPath) (t : Rat)
    (hp : h.output_dir.parts <+: path.parts) :
    should_rebuild h path t = false := by
  unfold should_rebuild
  cases hb : h.building with
  | true => simp [hb]
  | false =>
    cases hsuf : watch_extensions.contains (PyPath.suffix path) with
    | false => simp [hb, hsuf]
    | true => simp [hb, hsuf, hp]

/-- Witness for C7: a `.tex` file inside the output directory is rejected. -/
theorem output_dir_never_triggers_witness :
    should_rebuild ⟨⟨["src"]⟩, ⟨["build"]⟩, "main.tex", false, 1, 0, false⟩
        ⟨["build", "x.tex"]⟩ 99 = false :=
  output_dir_never_triggers _ _ _ (by decide)

/-- C8: starting from an idle handler, of two eligible events where the
second arrives within the debounce window of the first build's start, only
the first triggers a build; the second is rejected specifically by the
debounce check (the handler is no longer busy when it is examined). -/
theorem debounce_suppresses_second (h : LaTeXHandler) (p1 p2 : PyPath)
    (t1 t2 : Rat) (o : BuildExit)
    (hb : h.building = false)
    (hs1 : watch_extensions.contains (PyPath.suffix p1) = true)
    (ho1 : ¬ (h.output_dir.parts <+: p1.parts))
    (hs2 : watch_extensions.contains (PyPath.suffix p2) = true)
    (ho2 : ¬ (h.output_dir.parts <+: p2.parts))
    (hd1 : h.debounce_seconds ≤ t1 - h.last_build_time)
    (hd2 : t2 - t1 < h.debounce_seconds) :
    (on_modified h p1 false t1 o).2 = true
    ∧ ((on_modified h p1 false t1 o).1).building = false
    ∧ (on_modified ((on_modified h p1 false t1 o).1) p2 false t2 o).2 = false
    ∧ should_rebuild_decision ((on_modified h p1 false t1 o).1) p2 t2
        = .rejectedDebounce := by
  have hnd1 : ¬ (t1 - h.last_build_time < h.debounce_seconds) := not_lt.mpr hd1
  have hsr1 : should_rebuild h p1 t1 = true := by
    unfold should_rebuild
    simp [hb, ho1, hnd1]
    simpa using hs1
  have hstep : on_modified h p1 false t1 o = ((rebuild h t1 o).1, true) := by
    unfold on_modified
    rw [hsr1]
    rfl
  have hstate : (rebuild h t1 o).1
      = { h with building := false, last_build_time := t1 } := rfl
  refine ⟨by rw [hstep], by rw [hstep, hstate], ?_, ?_⟩
  · have hsr2 : should_rebuild (rebuild h t1 o).1 p2 t2 = false := by
      rw [hstate]
      unfold should_rebuild
      simp [ho2, hd2]
    rw [hstep]
    unfold on_modified
    rw [hsr2]
    rfl
  · rw [hstep, hstate]
    unfold should_rebuild_decision
    simp [ho2, hd2]
    simpa using hs2

/-- Witness for C8: two `.tex` events 0.1s apart with a 1s debounce window. -/
theorem debounce_suppresses_second_witness :
    (on_modified ⟨⟨["src"]⟩, ⟨["build"]⟩, "main.tex", false, 1, 0, false⟩
        ⟨["src", "a.tex"]⟩ false 5 .timedOut).2 = true
    ∧ should_rebuild_decision
        ((on_modified ⟨⟨["src"]⟩, ⟨["build"]⟩, "main.tex", false, 1, 0, false⟩
          ⟨["src", "a.tex"]⟩ false 5 .timedOut).1) ⟨["src", "b.tex"]⟩ (51/10)
        = .rejectedDebounce := by
  have h := debounce_suppresses_second
    ⟨⟨["src"]⟩, ⟨["build"]⟩, "main.tex", false, 1, 0, false⟩
    ⟨["src", "a.tex"]⟩ ⟨["src", "b.tex"]⟩ 5 (51/10) .timedOut
    rfl (by decide) (by decide) (by decide) (by decide)
    (by norm_num) (by norm_num)
  exact ⟨h.1, h.2.2.2⟩

/-- C9: a timed-out invocation is reported, not propagated: both build paths
return `succeeded = false` with a message containing "timed out", and a
watch-mode rebuild that times out still clears the `building` flag and
reports the timeout. -/
theorem timeout_reported :
    run_docker_build .timedOut = (false, "Build timed out after 10 minutes")
    ∧ run_local_build .timedOut = (false, "Build timed out after 5 minutes")
    ∧ pyContains (run_docker_build .timedOut).2 "timed out" = true
    ∧ pyContains (run_local_build .timedOut).2 "timed out" = true
    ∧ (∀ (h : LaTeXHandler) (now : Rat),
        ((rebuild h now .timedOut).1).building = false
        ∧ (rebuild h now .timedOut).2 = ["✗ Build timed out"]) :=
  ⟨rfl, rfl, by decide, by decide, fun _ _ => ⟨rfl, rfl⟩⟩

/-- C10: without `--dry-run` and with more than 20 discovered files, exactly
the first 20 files are deleted, the files at later positions remain (only
counted in the "... and N more files" note), the freed-size total is summed
over every discovered file and directory, and every minted directory is
removed. -/
theorem clean_deletes_first_twenty (files dirs : List (String × Nat))
    (hn : 20 < files.length) :
    (clean_run false files dirs).deleted_files = (files.map Prod.fst).take 20
    ∧ (clean_run false files dirs).remaining_files = (files.map Prod.fst).drop 20
    ∧ (clean_run false files dirs).deleted_files.length = 20
    ∧ (clean_run false files dirs).deleted_files
        ++ (clean_run false files dirs).remaining_files = files.map Prod.fst
    ∧ (clean_run false files dirs).total_size
        = (files.map Prod.snd).sum + (dirs.map Prod.snd).sum
    ∧ (clean_run false files dirs).deleted_dirs = dirs.map Prod.fst
    ∧ (clean_run false files dirs).more_files_note
        = some ("... and " ++ toString (files.length - 20) ++ " more files") := by
  refine ⟨rfl, rfl, ?_, ?_, rfl, rfl, ?_⟩
  · show ((files.map Prod.fst).take 20).length = 20
    rw [List.length_take, List.length_map]
    omega
  · show (files.map Prod.fst).take 20 ++ (files.map Prod.fst).drop 20 = _
    exact List.take_append_drop _ _
  · show (if 20 < files.length then _ else none) = _
    rw [if_pos hn]

/-- Witness for C10 on a concrete list of 21 files. -/
theorem clean_deletes_first_twenty_witness :
    20 < (List.replicate 21 ("a.aux", 2)).length
    ∧ (clean_run false (List.replicate 21 ("a.aux", 2)) [("_minted-doc", 7)]).deleted_files
        = ((List.replicate 21 ("a.aux", 2)).map Prod.fst).take 20 :=
  ⟨by decide,
   (clean_deletes_first_twenty (List.replicate 21 ("a.aux", 2)) [("_minted-doc", 7)]
     (by decide)).1⟩

end LatexDocker
